import Mathlib

/-!
Verification of the connection-pool and tenant-management core of the
multitenance-tutorial repository, as a shallow embedding in Lean 4.

The embedding follows `step03-connection-pool/src/connection_pool.cpp` and
`step05-tenant-management/src/tenant_manager.cpp` /
`tenant_context.cpp`.  Database handles are modelled by their creation
index (a `Nat`): `create_connection` hands out `total_created` as the new
handle id and increments the counter, so `total_created` doubles as the
cumulative created-connections statistic.  The outcome of the two
external effects inside an acquisition - the health-check round trip in
`validate_connection` and the possibility that opening a database throws -
are supplied as explicit boolean oracles (`healthOk`, `createOk`).
Every operation is modelled atomically against the pool state it executes
in, which is exactly the state the C++ code sees under `mutex_`.
-/

/-- Pool configuration, from `pool/pool_config.hpp` (`struct PoolConfig`).
Durations are carried in integral milliseconds. -/
structure PoolConfig where
  db_path : String
  create_if_missing : Bool := true
  min_connections : Nat := 1
  max_connections : Nat := 10
  acquire_timeout_ms : Nat := 5000
  idle_timeout_ms : Nat := 60000
  health_check_interval_ms : Nat := 30000
  enable_foreign_keys : Bool := true
  enable_wal_mode : Bool := true
  synchronous : String := "NORMAL"
  busy_timeout_ms : Nat := 5000
deriving DecidableEq

/-- `PoolConfig::validate()`: empty path, `min > max` and `max == 0` are
configuration errors (thrown as `std::invalid_argument` in the source). -/
def PoolConfig.validate (c : PoolConfig) : Except String Unit :=
  if c.db_path = "" then
    Except.error "db_path cannot be empty"
  else if c.max_connections < c.min_connections then
    Except.error "min_connections cannot exceed max_connections"
  else if c.max_connections = 0 then
    Except.error "max_connections must be at least 1"
  else
    Except.ok ()

/-- The mutable state of one `ConnectionPool` (members of the class in
`pool/connection_pool.hpp`).  `pool` is the idle deque `pool_` (front of the
list = front of the deque), holding handle ids; `total_created` is
`total_created_` and also the id the next created connection receives. -/
structure PoolState where
  pool : List Nat
  total_created : Nat
  active_count : Nat
  waiting_count : Nat
  total_acquisitions : Nat
  total_releases : Nat
  timeouts : Nat
  failed_health_checks : Nat
  peak_active : Nat
  shutdown : Bool
deriving DecidableEq

/-- Errors thrown by `ConnectionPool::acquire` (all `std::runtime_error` in
the source): pool shut down, acquisition timeout (the message carries the
configured timeout in ms plus the current active and max counts), or a
database error propagated from `create_connection`. -/
inductive AcquireError where
  | poolClosed : AcquireError
  | acquireTimeout (timeout_ms : Nat) (active : Nat) (max_conns : Nat) : AcquireError
  | dbError : AcquireError
deriving DecidableEq

/-- `ConnectionPool::warm_pool` as run by the constructor: eagerly creates
`min_connections` handles (ids `0, 1, ...`), all idle, all counters zero.
(A creation failure during warm-up aborts construction, so every
successfully constructed pool starts in this state.) -/
def ConnectionPool.warm_pool (cfg : PoolConfig) : PoolState :=
  { pool := List.range cfg.min_connections
    total_created := cfg.min_connections
    active_count := 0
    waiting_count := 0
    total_acquisitions := 0
    total_releases := 0
    timeouts := 0
    failed_health_checks := 0
    peak_active := 0
    shutdown := false }

/-- The bookkeeping shared by the success paths of `acquire` and
`try_acquire`: `++active_count_; ++total_acquisitions_; update_peak();`.
`update_peak` is the compare-and-retry loop, whose net effect is
`peak_active := max peak_active active_count`. -/
def ConnectionPool.finish_acquire (s : PoolState) (h : Nat) :
    PoolState × Except AcquireError Nat :=
  ({ s with
      active_count := s.active_count + 1
      total_acquisitions := s.total_acquisitions + 1
      peak_active := max s.peak_active (s.active_count + 1) },
   Except.ok h)

/-- `ConnectionPool::acquire()`.  The condition-variable wait succeeds
exactly when its predicate `shutdown_ || !pool_.empty() || active < max`
holds in the state the call completes in; otherwise the wait times out.
`healthOk` is the outcome of `validate_connection` on the popped idle
handle (only consulted when an idle handle exists); `createOk` is whether
`create_connection` succeeds when it is attempted.  Returns the state the
pool is left in together with the acquired handle id or the error thrown. -/
def ConnectionPool.acquire (cfg : PoolConfig) (healthOk createOk : Bool)
    (s : PoolState) : PoolState × Except AcquireError Nat :=
  if s.shutdown then
    (s, Except.error AcquireError.poolClosed)
  else if s.pool = [] ∧ cfg.max_connections ≤ s.active_count then
    ({ s with timeouts := s.timeouts + 1 },
     Except.error (AcquireError.acquireTimeout cfg.acquire_timeout_ms
       s.active_count cfg.max_connections))
  else
    match s.pool with
    | [] =>
      if createOk then
        ConnectionPool.finish_acquire
          { s with total_created := s.total_created + 1 } s.total_created
      else
        (s, Except.error AcquireError.dbError)
    | h :: rest =>
      if healthOk then
        ConnectionPool.finish_acquire { s with pool := rest } h
      else if createOk then
        ConnectionPool.finish_acquire
          { s with pool := rest
                   failed_health_checks := s.failed_health_checks + 1
                   total_created := s.total_created + 1 } s.total_created
      else
        ({ s with pool := rest
                  failed_health_checks := s.failed_health_checks + 1 },
         Except.error AcquireError.dbError)

/-- `ConnectionPool::try_acquire()`: same acquisition logic, never waits;
`none` models `std::nullopt`. -/
def ConnectionPool.try_acquire (cfg : PoolConfig) (healthOk createOk : Bool)
    (s : PoolState) : PoolState × Option Nat :=
  if s.shutdown then
    (s, none)
  else
    match s.pool with
    | h :: rest =>
      if healthOk then
        let r := ConnectionPool.finish_acquire { s with pool := rest } h
        (r.1, some h)
      else if s.active_count < cfg.max_connections then
        if createOk then
          let r := ConnectionPool.finish_acquire
            { s with pool := rest
                     failed_health_checks := s.failed_health_checks + 1
                     total_created := s.total_created + 1 } s.total_created
          (r.1, some s.total_created)
        else
          ({ s with pool := rest
                    failed_health_checks := s.failed_health_checks + 1 },
           none)
      else
        ({ s with pool := rest
                  failed_health_checks := s.failed_health_checks + 1 },
         none)
    | [] =>
      if s.active_count < cfg.max_connections then
        if createOk then
          let r := ConnectionPool.finish_acquire
            { s with total_created := s.total_created + 1 } s.total_created
          (r.1, some s.total_created)
        else
          (s, none)
      else
        (s, none)

/-- `ConnectionPool::release(conn)` with a non-null `conn`: decrement the
checked-out count, count the release, and append the handle to the idle
deque unless the pool has shut down (then the handle is discarded). -/
def ConnectionPool.release (s : PoolState) (h : Nat) : PoolState :=
  let s1 := { s with active_count := s.active_count - 1
                     total_releases := s.total_releases + 1 }
  if s1.shutdown then s1 else { s1 with pool := s1.pool ++ [h] }

/-- `ConnectionPool::clear()`: `pool_.clear()` under the lock, nothing else. -/
def ConnectionPool.clear (s : PoolState) : PoolState :=
  { s with pool := [] }

/-- The `~ConnectionPool()` destructor body: set `shutdown_` and drop all
idle handles. -/
def ConnectionPool.shutdown_pool (s : PoolState) : PoolState :=
  { s with shutdown := true, pool := [] }

/-- A `PooledConnection` (`pool/pooled_connection.hpp`): `conn` models the
owned `conn_` pointer (the handle id, or `none` once nulled) and
`has_release` models whether `release_func_` is still set. -/
structure PooledConnection where
  conn : Option Nat
  has_release : Bool
deriving DecidableEq

/-- `PooledConnection::release()`: only when both `conn_` and
`release_func_` are set does it call the pool's release (returning the
handle); it then nulls `release_func_`, and `conn_` is nulled in every
case.  The destructor runs exactly this function. -/
def PooledConnection.release (pc : PooledConnection) (s : PoolState) :
    PooledConnection × PoolState :=
  match pc.conn, pc.has_release with
  | some h, true => (⟨none, false⟩, ConnectionPool.release s h)
  | _, _ => (⟨none, pc.has_release⟩, s)

/-- One observable pool transition: any `acquire`, `try_acquire`,
`release` (a release only happens for an outstanding borrow, so the
checked-out count is positive), `clear` or destructor step, under
arbitrary oracle outcomes. -/
inductive Step (cfg : PoolConfig) : PoolState → PoolState → Prop where
  | acquire (healthOk createOk : Bool) (s : PoolState) :
      Step cfg s (ConnectionPool.acquire cfg healthOk createOk s).1
  | try_acquire (healthOk createOk : Bool) (s : PoolState) :
      Step cfg s (ConnectionPool.try_acquire cfg healthOk createOk s).1
  | release (h : Nat) (s : PoolState) (hact : 0 < s.active_count) :
      Step cfg s (ConnectionPool.release s h)
  | clear (s : PoolState) :
      Step cfg s (ConnectionPool.clear s)
  | shutdown_pool (s : PoolState) :
      Step cfg s (ConnectionPool.shutdown_pool s)

/-- States reachable from a freshly constructed pool. -/
inductive Reachable (cfg : PoolConfig) : PoolState → Prop where
  | init : Reachable cfg (ConnectionPool.warm_pool cfg)
  | step {s s' : PoolState} : Reachable cfg s → Step cfg s s' → Reachable cfg s'

theorem finish_acquire_fst (s : PoolState) (h : Nat) :
    (ConnectionPool.finish_acquire s h).1 =
      { s with active_count := s.active_count + 1
               total_acquisitions := s.total_acquisitions + 1
               peak_active := max s.peak_active (s.active_count + 1) } := rfl

/-- Every single step preserves the bound `active + idle ≤ max`. -/
theorem step_preserves_bound {cfg : PoolConfig} {s s' : PoolState}
    (hstep : Step cfg s s')
    (hinv : s.active_count + s.pool.length ≤ cfg.max_connections) :
    s'.active_count + s'.pool.length ≤ cfg.max_connections := by
  cases hstep with
  | acquire healthOk createOk s =>
    rcases hp : s.pool with _ | ⟨h, rest⟩ <;>
      rw [hp] at hinv <;>
      simp only [ConnectionPool.acquire, ConnectionPool.finish_acquire, hp] <;>
      split_ifs <;>
      simp_all <;>
      omega
  | try_acquire healthOk createOk s =>
    rcases hp : s.pool with _ | ⟨h, rest⟩ <;>
      rw [hp] at hinv <;>
      simp only [ConnectionPool.try_acquire, ConnectionPool.finish_acquire, hp] <;>
      split_ifs <;>
      simp_all <;>
      omega
  | release h s hact =>
    simp only [ConnectionPool.release]
    split_ifs <;> simp_all <;> omega
  | clear s =>
    simp [ConnectionPool.clear]; omega
  | shutdown_pool s =>
    simp [ConnectionPool.shutdown_pool]; omega

/-- The bound invariant holds in every reachable state (given a validated
configuration, whose warm-up creates `min ≤ max` idle handles). -/
theorem bound_of_reachable {cfg : PoolConfig} {s : PoolState}
    (hv : cfg.validate = Except.ok ()) (hr : Reachable cfg s) :
    s.active_count + s.pool.length ≤ cfg.max_connections := by
  have hmin : cfg.min_connections ≤ cfg.max_connections := by
    unfold PoolConfig.validate at hv
    split at hv
    · exact absurd hv (by simp)
    · split at hv
      · exact absurd hv (by simp)
      · omega
  induction hr with
  | init => simpa [ConnectionPool.warm_pool] using hmin
  | step hr hstep ih => exact step_preserves_bound hstep ih

/-! ### Concrete instances used by the witness theorems -/

/-- A small valid configuration: one warm connection, at most two. -/
def cfgEx : PoolConfig :=
  { db_path := "tenant.db", min_connections := 1, max_connections := 2 }

/-- A pool state with both connections checked out and an empty idle deque
(the situation in which a further blocking acquire times out). -/
def sFull : PoolState :=
  { pool := [], total_created := 2, active_count := 2, waiting_count := 0
    total_acquisitions := 2, total_releases := 0, timeouts := 0
    failed_health_checks := 0, peak_active := 2, shutdown := false }

/-- A pool state with one idle handle (id 0) and one checked out (id 1). -/
def sMixed : PoolState :=
  { pool := [0], total_created := 2, active_count := 1, waiting_count := 0
    total_acquisitions := 3, total_releases := 2, timeouts := 0
    failed_health_checks := 0, peak_active := 2, shutdown := false }

/-! ### Claims C1, C2, C4, C8 about the connection pool -/

/-- Claim C1: for every sequence of acquire, try_acquire and release
operations on a pool constructed with a validated configuration, every
reachable state satisfies checked-out count + idle count less than or
equal to max_connections, and the checked-out count is non-negative. -/
theorem C1_bound_invariant (cfg : PoolConfig) (s : PoolState)
    (hv : cfg.validate = Except.ok ()) (hr : Reachable cfg s) :
    s.active_count + s.pool.length ≤ cfg.max_connections ∧
      0 ≤ s.active_count :=
  ⟨bound_of_reachable hv hr, Nat.zero_le _⟩

theorem C1_bound_invariant_witness :
    cfgEx.validate = Except.ok () ∧
      Reachable cfgEx (ConnectionPool.warm_pool cfgEx) ∧
      ((ConnectionPool.warm_pool cfgEx).active_count +
          (ConnectionPool.warm_pool cfgEx).pool.length ≤ cfgEx.max_connections ∧
        0 ≤ (ConnectionPool.warm_pool cfgEx).active_count) :=
  ⟨rfl, Reachable.init, C1_bound_invariant cfgEx _ rfl Reachable.init⟩

/-- Claim C2: an acquire call that expires its timeout (no idle handle and
the checked-out count at or above max while the pool is open) increments
the timeout counter by exactly 1 and fails with the timeout error
reporting the configured wait plus the current active and max counts, and
leaves every other component of the pool state unchanged - in particular
no checked-out handle is added. -/
theorem C2_timeout_pure_count (cfg : PoolConfig) (s : PoolState)
    (healthOk createOk : Bool) (hsd : s.shutdown = false)
    (hpool : s.pool = []) (hfull : cfg.max_connections ≤ s.active_count) :
    (ConnectionPool.acquire cfg healthOk createOk s).2 =
        Except.error (AcquireError.acquireTimeout cfg.acquire_timeout_ms
          s.active_count cfg.max_connections) ∧
      (ConnectionPool.acquire cfg healthOk createOk s).1.timeouts = s.timeouts + 1 ∧
      (ConnectionPool.acquire cfg healthOk createOk s).1.active_count = s.active_count ∧
      (ConnectionPool.acquire cfg healthOk createOk s).1.pool = s.pool ∧
      (ConnectionPool.acquire cfg healthOk createOk s).1.waiting_count = s.waiting_count ∧
      (ConnectionPool.acquire cfg healthOk createOk s).1.total_created = s.total_created ∧
      (ConnectionPool.acquire cfg healthOk createOk s).1.total_acquisitions = s.total_acquisitions ∧
      (ConnectionPool.acquire cfg healthOk createOk s).1.total_releases = s.total_releases ∧
      (ConnectionPool.acquire cfg healthOk createOk s).1.failed_health_checks = s.failed_health_checks ∧
      (ConnectionPool.acquire cfg healthOk createOk s).1.peak_active = s.peak_active ∧
      (ConnectionPool.acquire cfg healthOk createOk s).1.shutdown = s.shutdown := by
  simp [ConnectionPool.acquire, hsd, hpool, hfull]

theorem C2_timeout_pure_count_witness :
    sFull.shutdown = false ∧ sFull.pool = [] ∧
      cfgEx.max_connections ≤ sFull.active_count ∧
      ((ConnectionPool.acquire cfgEx true true sFull).2 =
          Except.error (AcquireError.acquireTimeout cfgEx.acquire_timeout_ms
            sFull.active_count cfgEx.max_connections) ∧
        (ConnectionPool.acquire cfgEx true true sFull).1.timeouts = sFull.timeouts + 1 ∧
        (ConnectionPool.acquire cfgEx true true sFull).1.active_count = sFull.active_count ∧
        (ConnectionPool.acquire cfgEx true true sFull).1.pool = sFull.pool ∧
        (ConnectionPool.acquire cfgEx true true sFull).1.waiting_count = sFull.waiting_count ∧
        (ConnectionPool.acquire cfgEx true true sFull).1.total_created = sFull.total_created ∧
        (ConnectionPool.acquire cfgEx true true sFull).1.total_acquisitions = sFull.total_acquisitions ∧
        (ConnectionPool.acquire cfgEx true true sFull).1.total_releases = sFull.total_releases ∧
        (ConnectionPool.acquire cfgEx true true sFull).1.failed_health_checks = sFull.failed_health_checks ∧
        (ConnectionPool.acquire cfgEx true true sFull).1.peak_active = sFull.peak_active ∧
        (ConnectionPool.acquire cfgEx true true sFull).1.shutdown = sFull.shutdown) :=
  ⟨rfl, rfl, by decide,
    C2_timeout_pure_count cfgEx sFull true true rfl rfl (by decide)⟩

/-- Claim C4: a pooled connection releases at most once.  The first
release of a live borrow decrements the checked-out count and increments
the total-releases counter exactly once and nulls the handle; a second
release (explicit, or run by the destructor) is a no-op that leaves the
pool state untouched. -/
theorem C4_release_idempotent (pc : PooledConnection) (s : PoolState)
    (h : Nat) (hconn : pc.conn = some h) (hrel : pc.has_release = true)
    (hact : 0 < s.active_count) :
    (PooledConnection.release pc s).1 = ⟨none, false⟩ ∧
      (PooledConnection.release pc s).2.active_count + 1 = s.active_count ∧
      (PooledConnection.release pc s).2.total_releases = s.total_releases + 1 ∧
      PooledConnection.release (PooledConnection.release pc s).1
          (PooledConnection.release pc s).2 =
        (⟨none, false⟩, (PooledConnection.release pc s).2) := by
  obtain ⟨c, r⟩ := pc
  cases hconn
  cases hrel
  simp only [PooledConnection.release, ConnectionPool.release]
  split_ifs <;> simp_all <;> omega

theorem C4_release_idempotent_witness :
    (⟨some 0, true⟩ : PooledConnection).conn = some 0 ∧
      (⟨some 0, true⟩ : PooledConnection).has_release = true ∧
      0 < sMixed.active_count ∧
      ((PooledConnection.release ⟨some 0, true⟩ sMixed).1 = ⟨none, false⟩ ∧
        (PooledConnection.release ⟨some 0, true⟩ sMixed).2.active_count + 1 =
          sMixed.active_count ∧
        (PooledConnection.release ⟨some 0, true⟩ sMixed).2.total_releases =
          sMixed.total_releases + 1 ∧
        PooledConnection.release (PooledConnection.release ⟨some 0, true⟩ sMixed).1
            (PooledConnection.release ⟨some 0, true⟩ sMixed).2 =
          (⟨none, false⟩, (PooledConnection.release ⟨some 0, true⟩ sMixed).2)) :=
  ⟨rfl, rfl, by decide,
    C4_release_idempotent ⟨some 0, true⟩ sMixed 0 rfl rfl (by decide)⟩

/-- Claim C8: clear discards all idle handles and changes nothing else:
the shutdown flag stays false (the pool remains open), the checked-out
count and every statistics counter are unchanged, and a handle that was
checked out at the time of clear returns normally into the now empty
idle deque on release. -/
theorem C8_clear_frame (s : PoolState) (h : Nat) (hsd : s.shutdown = false) :
    (ConnectionPool.clear s).pool = [] ∧
      (ConnectionPool.clear s).shutdown = false ∧
      (ConnectionPool.clear s).active_count = s.active_count ∧
      (ConnectionPool.clear s).waiting_count = s.waiting_count ∧
      (ConnectionPool.clear s).total_created = s.total_created ∧
      (ConnectionPool.clear s).total_acquisitions = s.total_acquisitions ∧
      (ConnectionPool.clear s).total_releases = s.total_releases ∧
      (ConnectionPool.clear s).timeouts = s.timeouts ∧
      (ConnectionPool.clear s).failed_health_checks = s.failed_health_checks ∧
      (ConnectionPool.clear s).peak_active = s.peak_active ∧
      (ConnectionPool.release (ConnectionPool.clear s) h).pool = [h] ∧
      (ConnectionPool.release (ConnectionPool.clear s) h).active_count =
        s.active_count - 1 ∧
      (ConnectionPool.release (ConnectionPool.clear s) h).total_releases =
        s.total_releases + 1 := by
  simp [ConnectionPool.clear, ConnectionPool.release, hsd]

theorem C8_clear_frame_witness :
    sMixed.shutdown = false ∧
      ((ConnectionPool.clear sMixed).pool = [] ∧
        (ConnectionPool.clear sMixed).shutdown = false ∧
        (ConnectionPool.clear sMixed).active_count = sMixed.active_count ∧
        (ConnectionPool.clear sMixed).waiting_count = sMixed.waiting_count ∧
        (ConnectionPool.clear sMixed).total_created = sMixed.total_created ∧
        (ConnectionPool.clear sMixed).total_acquisitions = sMixed.total_acquisitions ∧
        (ConnectionPool.clear sMixed).total_releases = sMixed.total_releases ∧
        (ConnectionPool.clear sMixed).timeouts = sMixed.timeouts ∧
        (ConnectionPool.clear sMixed).failed_health_checks = sMixed.failed_health_checks ∧
        (ConnectionPool.clear sMixed).peak_active = sMixed.peak_active ∧
        (ConnectionPool.release (ConnectionPool.clear sMixed) 1).pool = [1] ∧
        (ConnectionPool.release (ConnectionPool.clear sMixed) 1).active_count =
          sMixed.active_count - 1 ∧
        (ConnectionPool.release (ConnectionPool.clear sMixed) 1).total_releases =
          sMixed.total_releases + 1) :=
  ⟨rfl, C8_clear_frame sMixed 1 rfl⟩

/-! ### Claims C3, C5, C10 about acquisition logic -/

/-- Claim C3: try_acquire performs the acquisition logic without waiting.
In a non-shut-down pool satisfying the bound invariant, it returns no
handle exactly when either no idle handle exists and the checked-out
count is already at max_connections, or a handle creation is attempted
(no idle handle with room, or an idle handle that failed its health
check) and creation raises an error; in every other case it returns a
handle and increments the checked-out and total-acquisition counts. -/
theorem C3_try_acquire_cases (cfg : PoolConfig) (s : PoolState)
    (healthOk createOk : Bool) (hsd : s.shutdown = false)
    (hinv : s.active_count + s.pool.length ≤ cfg.max_connections) :
    ((ConnectionPool.try_acquire cfg healthOk createOk s).2 = none ↔
      (s.pool = [] ∧ cfg.max_connections ≤ s.active_count) ∨
        (((s.pool = [] ∧ s.active_count < cfg.max_connections) ∨
            (s.pool ≠ [] ∧ healthOk = false)) ∧ createOk = false)) ∧
      (∀ p : Nat, (ConnectionPool.try_acquire cfg healthOk createOk s).2 = some p →
        (ConnectionPool.try_acquire cfg healthOk createOk s).1.active_count =
            s.active_count + 1 ∧
          (ConnectionPool.try_acquire cfg healthOk createOk s).1.total_acquisitions =
            s.total_acquisitions + 1) := by
  rcases hp : s.pool with _ | ⟨h, rest⟩ <;>
    rw [hp] at hinv <;>
    simp only [ConnectionPool.try_acquire, ConnectionPool.finish_acquire, hsd, hp] <;>
    split_ifs <;> simp_all <;> omega

theorem C3_try_acquire_cases_witness :
    sFull.shutdown = false ∧
      sFull.active_count + sFull.pool.length ≤ cfgEx.max_connections ∧
      (((ConnectionPool.try_acquire cfgEx true true sFull).2 = none ↔
        (sFull.pool = [] ∧ cfgEx.max_connections ≤ sFull.active_count) ∨
          (((sFull.pool = [] ∧ sFull.active_count < cfgEx.max_connections) ∨
              (sFull.pool ≠ [] ∧ true = false)) ∧ true = false)) ∧
        (∀ p : Nat, (ConnectionPool.try_acquire cfgEx true true sFull).2 = some p →
          (ConnectionPool.try_acquire cfgEx true true sFull).1.active_count =
              sFull.active_count + 1 ∧
            (ConnectionPool.try_acquire cfgEx true true sFull).1.total_acquisitions =
              sFull.total_acquisitions + 1)) :=
  ⟨rfl, by decide, C3_try_acquire_cases cfgEx sFull true true rfl (by decide)⟩

/-- Claim C5: the health check runs only on a handle popped from the idle
deque - when the idle deque is empty the acquire result does not depend
on the health-check outcome at all - and when the popped handle fails the
check it is discarded (it is not in the resulting idle deque), the
failed-health-check counter goes up by exactly 1, and the acquire still
succeeds, returning a freshly created handle (the new id, distinct from
the discarded one). -/
theorem C5_health_check_on_idle_only (cfg : PoolConfig) (s : PoolState)
    (h : Nat) (rest : List Nat) (hsd : s.shutdown = false)
    (hp : s.pool = h :: rest) (hnr : h ∉ rest)
    (hfresh : s.total_created ∉ s.pool) :
    ((ConnectionPool.acquire cfg false true s).2 = Except.ok s.total_created ∧
      (ConnectionPool.acquire cfg false true s).1.failed_health_checks =
        s.failed_health_checks + 1 ∧
      (ConnectionPool.acquire cfg false true s).1.total_created =
        s.total_created + 1 ∧
      h ∉ (ConnectionPool.acquire cfg false true s).1.pool ∧
      s.total_created ≠ h) ∧
      ∀ (s2 : PoolState) (hOk hOk2 cOk : Bool), s2.pool = [] →
        ConnectionPool.acquire cfg hOk cOk s2 = ConnectionPool.acquire cfg hOk2 cOk s2 := by
  constructor
  · rw [hp] at hfresh
    simp only [ConnectionPool.acquire, ConnectionPool.finish_acquire, hsd, hp]
    simp_all
  · intro s2 hOk hOk2 cOk hp2
    simp [ConnectionPool.acquire, hp2]

theorem C5_health_check_on_idle_only_witness :
    sMixed.shutdown = false ∧ sMixed.pool = 0 :: [] ∧ (0 : Nat) ∉ ([] : List Nat) ∧
      sMixed.total_created ∉ sMixed.pool ∧
      (((ConnectionPool.acquire cfgEx false true sMixed).2 =
          Except.ok sMixed.total_created ∧
        (ConnectionPool.acquire cfgEx false true sMixed).1.failed_health_checks =
          sMixed.failed_health_checks + 1 ∧
        (ConnectionPool.acquire cfgEx false true sMixed).1.total_created =
          sMixed.total_created + 1 ∧
        (0 : Nat) ∉ (ConnectionPool.acquire cfgEx false true sMixed).1.pool ∧
        sMixed.total_created ≠ 0) ∧
        ∀ (s2 : PoolState) (hOk hOk2 cOk : Bool), s2.pool = [] →
          ConnectionPool.acquire cfgEx hOk cOk s2 =
            ConnectionPool.acquire cfgEx hOk2 cOk s2) :=
  ⟨rfl, rfl, by decide, by decide,
    C5_health_check_on_idle_only cfgEx sMixed 0 [] rfl rfl (by decide) (by decide)⟩

/-- Claim C10: in every state reachable from a freshly constructed pool
with a validated configuration, a non-empty idle deque forces the
checked-out count strictly below max_connections, so the try_acquire
branch that gives up after a failed health check because the pool is at
maximum is unreachable; a failed health check alone never makes
try_acquire fail when the replacement creation succeeds - it returns the
freshly created handle. -/
theorem C10_failed_check_branch_unreachable (cfg : PoolConfig) (s : PoolState)
    (hv : cfg.validate = Except.ok ()) (hr : Reachable cfg s)
    (h : Nat) (rest : List Nat) (hp : s.pool = h :: rest) :
    s.active_count < cfg.max_connections ∧
      (s.shutdown = false →
        (ConnectionPool.try_acquire cfg false true s).2 = some s.total_created) := by
  have hb := bound_of_reachable hv hr
  rw [hp] at hb
  simp only [List.length_cons] at hb
  have hlt : s.active_count < cfg.max_connections := by omega
  refine ⟨hlt, fun hsd => ?_⟩
  simp [ConnectionPool.try_acquire, ConnectionPool.finish_acquire, hsd, hp, hlt]

theorem C10_failed_check_branch_unreachable_witness :
    cfgEx.validate = Except.ok () ∧
      Reachable cfgEx (ConnectionPool.warm_pool cfgEx) ∧
      (ConnectionPool.warm_pool cfgEx).pool = 0 :: [] ∧
      ((ConnectionPool.warm_pool cfgEx).active_count < cfgEx.max_connections ∧
        ((ConnectionPool.warm_pool cfgEx).shutdown = false →
          (ConnectionPool.try_acquire cfgEx false true
              (ConnectionPool.warm_pool cfgEx)).2 =
            some (ConnectionPool.warm_pool cfgEx).total_created)) :=
  ⟨rfl, Reachable.init, by decide,
    C10_failed_check_branch_unreachable cfgEx _ rfl Reachable.init 0 [] (by decide)⟩

/-!
### Tenant context (`step05-tenant-management/src/tenant_context.cpp`)

The three `thread_local` members of `TenantContext` form the per-thread
state; `TenantScope` is the RAII guard, split into the constructor
(`TenantScope.enter`, which snapshots the previous state and sets the new
context) and the destructor (`TenantScope.restore`, which re-sets the
snapshot or clears).
-/

/-- The thread-local members `current_tenant_id_`, `current_user_id_`,
`has_context_`. -/
structure TCState where
  current_tenant_id : String
  current_user_id : Int
  has_context : Bool
deriving DecidableEq

/-- `TenantContext::set`. -/
def TenantContext.set (tenant_id : String) (user_id : Int) (_ : TCState) : TCState :=
  ⟨tenant_id, user_id, true⟩

/-- `TenantContext::clear`. -/
def TenantContext.clear (_ : TCState) : TCState :=
  ⟨"", 0, false⟩

/-- `TenantContext::tenant_id()`: throws when no context is set. -/
def TenantContext.tenant_id (s : TCState) : Except String String :=
  if s.has_context then Except.ok s.current_tenant_id
  else Except.error "No tenant context set"

/-- `TenantContext::user_id()`. -/
def TenantContext.user_id (s : TCState) : Int :=
  s.current_user_id

/-- The members of a `TenantScope` object. -/
structure TenantScope where
  previous_tenant_id : String
  previous_user_id : Int
  had_previous_context : Bool
deriving DecidableEq

/-- The `TenantScope` constructor: snapshot the previous context (an empty
identifier when none was set; the user id is copied unconditionally) and
install the new one. -/
def TenantScope.enter (tenant_id : String) (user_id : Int) (s : TCState) :
    TenantScope × TCState :=
  (⟨if s.has_context then s.current_tenant_id else "", s.current_user_id, s.has_context⟩,
   TenantContext.set tenant_id user_id s)

/-- The `TenantScope` destructor: re-set the snapshot if there was a
previous context, clear otherwise.  It overwrites whatever the current
state is, so it runs the same way however the scope ended. -/
def TenantScope.restore (sc : TenantScope) (s : TCState) : TCState :=
  if sc.had_previous_context then
    TenantContext.set sc.previous_tenant_id sc.previous_user_id s
  else
    TenantContext.clear s

/-! ### Claim C7 -/

/-- Claim C7: for every prior context state that is either genuinely set
or genuinely unset (the two shapes `set`/`clear` can produce), entering a
scope makes the current context exactly the new pair, leaving the scope
restores exactly the prior state whatever state the body left behind
(which gives correct behaviour under arbitrary nesting), and when the
prior state was unset, reading the tenant identifier after the scope ends
is again an error. -/
theorem C7_scope_restores_prior_state (s : TCState) (t : String) (u : Int)
    (hwf : s.has_context = false → s.current_tenant_id = "" ∧ s.current_user_id = 0) :
    (TenantScope.enter t u s).2 = ⟨t, u, true⟩ ∧
      (∀ s2 : TCState, TenantScope.restore (TenantScope.enter t u s).1 s2 = s) ∧
      (s.has_context = false → ∀ s2 : TCState,
        TenantContext.tenant_id (TenantScope.restore (TenantScope.enter t u s).1 s2) =
          Except.error "No tenant context set") := by
  obtain ⟨tid, uid, hc⟩ := s
  cases hc
  · obtain ⟨h1, h2⟩ := hwf rfl
    cases h1
    cases h2
    exact ⟨rfl, fun s2 => rfl, fun _ s2 => rfl⟩
  · refine ⟨rfl, fun s2 => rfl, fun hfalse => absurd hfalse (by simp)⟩

theorem C7_scope_restores_prior_state_witness :
    ((⟨"", 0, false⟩ : TCState).has_context = false →
        (⟨"", 0, false⟩ : TCState).current_tenant_id = "" ∧
          (⟨"", 0, false⟩ : TCState).current_user_id = 0) ∧
      ((TenantScope.enter "acme" 7 ⟨"", 0, false⟩).2 = ⟨"acme", 7, true⟩ ∧
        (∀ s2 : TCState,
          TenantScope.restore (TenantScope.enter "acme" 7 ⟨"", 0, false⟩).1 s2 =
            ⟨"", 0, false⟩) ∧
        ((⟨"", 0, false⟩ : TCState).has_context = false → ∀ s2 : TCState,
          TenantContext.tenant_id
              (TenantScope.restore (TenantScope.enter "acme" 7 ⟨"", 0, false⟩).1 s2) =
            Except.error "No tenant context set")) :=
  ⟨fun _ => ⟨rfl, rfl⟩,
    C7_scope_restores_prior_state ⟨"", 0, false⟩ "acme" 7 (fun _ => ⟨rfl, rfl⟩)⟩

/-!
### Tenant manager (`step05-tenant-management/src/tenant_manager.cpp`)

The system catalog's `tenants` table is modelled by the list of rows the
manager's queries look at (`tenant_id` is UNIQUE); the tenant-to-pool
map `tenant_pools_` by an association list; a live `ConnectionPool`
instance by its creation index plus the database path it targets.
-/

/-- The columns of a catalog row that `is_tenant_active` and `get_pool`
consult (from `repository::Tenant`). -/
structure TenantRow where
  tenant_id : String
  name : String := ""
  plan : String := "free"
  active : Bool := true
  db_path : String := ""
deriving DecidableEq

/-- A live pool as `get_pool` observes it: which instance it is and which
database file it targets. -/
structure PoolInstance where
  instance_id : Nat
  db_path : String
deriving DecidableEq

/-- The state of a `TenantManager`: catalog rows, the `tenant_pools_`
map, a counter giving the next pool-instance identity, and the configured
tenant database directory. -/
structure TMState where
  catalog : List TenantRow
  tenant_pools : List (String × PoolInstance)
  next_pool_id : Nat
  tenant_db_directory : String
deriving DecidableEq

/-- Errors `TenantManager::get_pool` can throw: a single
`std::runtime_error` whose message is
`Tenant '<id>' not found or inactive`, used both when the tenant is not
registered and when it is registered but inactive. -/
inductive TMError where
  | tenantNotFoundOrInactive (tenant_id : String) : TMError
deriving DecidableEq

/-- `TenantManager::get_tenant_db_path`: `tenant_db_directory / (id + ".db")`. -/
def TenantManager.get_tenant_db_path (s : TMState) (tenant_id : String) : String :=
  s.tenant_db_directory ++ "/" ++ tenant_id ++ ".db"

/-- `TenantManager::is_tenant_active`: look the row up by `tenant_id`;
return its `active` flag, or false when there is no row. -/
def TenantManager.is_tenant_active (s : TMState) (tenant_id : String) : Bool :=
  match s.catalog.find? (fun t => t.tenant_id = tenant_id) with
  | some t => t.active
  | none => false

/-- `TenantManager::create_tenant_pool`: a fresh pool targeting the
tenant's database path. -/
def TenantManager.create_tenant_pool (s : TMState) (tenant_id : String) : PoolInstance :=
  ⟨s.next_pool_id, TenantManager.get_tenant_db_path s tenant_id⟩

/-- `TenantManager::get_pool`: under `pools_mutex_`, return the stored
pool if present; otherwise throw unless the tenant is registered and
active; otherwise create a pool, store it and return it. -/
def TenantManager.get_pool (s : TMState) (tenant_id : String) :
    TMState × Except TMError PoolInstance :=
  match s.tenant_pools.lookup tenant_id with
  | some p => (s, Except.ok p)
  | none =>
    if TenantManager.is_tenant_active s tenant_id then
      let p := TenantManager.create_tenant_pool s tenant_id
      ({ s with tenant_pools := (tenant_id, p) :: s.tenant_pools
                next_pool_id := s.next_pool_id + 1 },
       Except.ok p)
    else
      (s, Except.error (TMError.tenantNotFoundOrInactive tenant_id))

/-- Calling `get_pool` again for the same tenant, starting from the state
the first call left behind, changes nothing and returns the same result:
a stored pool is found again, an error leaves the state untouched, and a
freshly inserted pool is found by the second lookup. -/
theorem get_pool_idem (s : TMState) (tenant_id : String) :
    TenantManager.get_pool (TenantManager.get_pool s tenant_id).1 tenant_id =
      ((TenantManager.get_pool s tenant_id).1,
       (TenantManager.get_pool s tenant_id).2) := by
  rcases hl : s.tenant_pools.lookup tenant_id with _ | p
  · by_cases ha : TenantManager.is_tenant_active s tenant_id
    · simp [TenantManager.get_pool, hl, ha, List.lookup]
    · simp [TenantManager.get_pool, hl, ha]
  · simp [TenantManager.get_pool, hl]

/-- A manager state whose catalog registers tenant `acme` as inactive. -/
def tmInactive : TMState :=
  { catalog := [{ tenant_id := "acme", active := false }]
    tenant_pools := [], next_pool_id := 0, tenant_db_directory := "tenants" }

/-- A manager state whose catalog does not mention tenant `acme` at all. -/
def tmAbsent : TMState :=
  { catalog := [], tenant_pools := [], next_pool_id := 0
    tenant_db_directory := "tenants" }

/-- A manager state whose catalog registers tenant `acme` as active, with
no live pool yet. -/
def tmActive : TMState :=
  { catalog := [{ tenant_id := "acme", active := true }]
    tenant_pools := [], next_pool_id := 0, tenant_db_directory := "tenants" }

/-! ### Claim C6 -/

/-- Claim C6 counterexample: the code cannot fail with a TenantNotFound
error for an unregistered tenant and a different TenantInactive error for
a registered-but-inactive tenant, because it throws one and the same
combined error in both situations: `get_pool` on a catalog in which
`acme` is registered but inactive produces a result identical to
`get_pool` on a catalog in which `acme` does not appear at all. -/
theorem C6_counterexample :
    (TenantManager.get_pool tmInactive "acme").2 =
        Except.error (TMError.tenantNotFoundOrInactive "acme") ∧
      (TenantManager.get_pool tmAbsent "acme").2 =
        Except.error (TMError.tenantNotFoundOrInactive "acme") ∧
      (TenantManager.get_pool tmInactive "acme").2 =
        (TenantManager.get_pool tmAbsent "acme").2 :=
  ⟨rfl, rfl, rfl⟩

/-- Claim C6 (amended): get_pool returns the already-stored pool when one
exists for the tenant; otherwise it fails with the single combined
not-found-or-inactive error when the tenant is not registered in the
catalog or is registered but marked inactive, and only otherwise creates
a new pool targeting that tenant's database locator, stores it, and
returns it - so a subsequent call for the same tenant returns the
identical pool instance and changes nothing further. -/
theorem C6_get_pool_lifecycle (s : TMState) (tenant_id : String) :
    (∀ p : PoolInstance, s.tenant_pools.lookup tenant_id = some p →
        TenantManager.get_pool s tenant_id = (s, Except.ok p)) ∧
      (s.tenant_pools.lookup tenant_id = none →
        TenantManager.is_tenant_active s tenant_id = false →
        TenantManager.get_pool s tenant_id =
          (s, Except.error (TMError.tenantNotFoundOrInactive tenant_id))) ∧
      (s.tenant_pools.lookup tenant_id = none →
        TenantManager.is_tenant_active s tenant_id = true →
        ((TenantManager.get_pool s tenant_id).2 =
            Except.ok ⟨s.next_pool_id, TenantManager.get_tenant_db_path s tenant_id⟩ ∧
          TenantManager.get_pool (TenantManager.get_pool s tenant_id).1 tenant_id =
            ((TenantManager.get_pool s tenant_id).1,
             (TenantManager.get_pool s tenant_id).2))) := by
  refine ⟨?_, ?_, ?_⟩
  · intro p hp
    simp [TenantManager.get_pool, hp]
  · intro hp ha
    simp [TenantManager.get_pool, hp, ha]
  · intro hp ha
    exact ⟨by simp [TenantManager.get_pool, hp, ha, TenantManager.create_tenant_pool],
      get_pool_idem s tenant_id⟩

theorem C6_get_pool_lifecycle_witness :
    tmActive.tenant_pools.lookup "acme" = none ∧
      TenantManager.is_tenant_active tmActive "acme" = true ∧
      ((TenantManager.get_pool tmActive "acme").2 =
          Except.ok ⟨tmActive.next_pool_id,
            TenantManager.get_tenant_db_path tmActive "acme"⟩ ∧
        TenantManager.get_pool (TenantManager.get_pool tmActive "acme").1 "acme" =
          ((TenantManager.get_pool tmActive "acme").1,
           (TenantManager.get_pool tmActive "acme").2)) :=
  ⟨rfl, rfl, (C6_get_pool_lifecycle tmActive "acme").2.2 rfl rfl⟩

/-! ### Claim C9 -/

/-- The observable lock and work events inside `TenantManager::get_pool`. -/
inductive TMEvent where
  | lockAcquire : TMEvent
  | lockRelease : TMEvent
  | mapLookup : TMEvent
  | catalogCheck : TMEvent
  | poolCreate : TMEvent
  | mapInsert : TMEvent
deriving DecidableEq

/-- The sequence of events `TenantManager::get_pool` performs, in source
order: the `std::lock_guard` on `pools_mutex_` is constructed on the
first line of the body and destroyed when the function returns, so every
other event sits between the two; on a map miss the catalog is checked
and, for an active tenant, `create_tenant_pool` (the pool warm-up) runs
and the result is inserted into the map.  `found` says whether the map
lookup hit; `tenant_ok` whether `is_tenant_active` returned true (when it
is false the function throws, still releasing the lock on unwind). -/
def TenantManager.get_pool_events (found tenant_ok : Bool) : List TMEvent :=
  [TMEvent.lockAcquire, TMEvent.mapLookup] ++
    (if found then []
     else TMEvent.catalogCheck ::
       (if tenant_ok then [TMEvent.poolCreate, TMEvent.mapInsert] else [])) ++
    [TMEvent.lockRelease]

/-- The sub-list of a trace consisting of the events that happen while
the lock is held (the flag carries whether the lock is held on entry). -/
def heldEvents : List TMEvent → Bool → List TMEvent
  | [], _ => []
  | TMEvent.lockAcquire :: es, _ => heldEvents es true
  | TMEvent.lockRelease :: es, _ => heldEvents es false
  | e :: es, held => if held then e :: heldEvents es held else heldEvents es held

/-- Claim C9 counterexample: on the pool-creating path of `get_pool`
(map miss, active tenant) the pool warm-up runs while the tenant-to-pool
mapping lock is held, contradicting the claim that creation is performed
without holding that lock. -/
theorem C9_counterexample :
    TMEvent.poolCreate ∈
      heldEvents (TenantManager.get_pool_events false true) false := by
  decide

/-- Claim C9 (amended): in `TenantManager::get_pool` both the creation
(warm-up) of a new tenant pool and its insertion into the mapping are
performed while the tenant-to-pool mapping lock is held, so the whole
check-create-insert sequence is atomic with respect to concurrent
`get_pool` calls and a race cannot create two live pools for one tenant -
a repeated call finds the stored pool and changes nothing - but a slow
pool warm-up does block `get_pool` calls for unrelated tenants. -/
theorem C9_creation_holds_mapping_lock :
    (TMEvent.poolCreate ∈
        heldEvents (TenantManager.get_pool_events false true) false ∧
      TMEvent.mapInsert ∈
        heldEvents (TenantManager.get_pool_events false true) false) ∧
      ∀ (s : TMState) (tenant_id : String),
        TenantManager.get_pool (TenantManager.get_pool s tenant_id).1 tenant_id =
          ((TenantManager.get_pool s tenant_id).1,
           (TenantManager.get_pool s tenant_id).2) :=
  ⟨by decide, fun s tenant_id => get_pool_idem s tenant_id⟩
